import Mathlib

/-!
Shallow embedding of `src/QWebKitView/QWebKitView.py`, a PyQt6 adapter that
wraps the macOS WebKit `WKWebView` behind the `QWebEngineView` API.

The adapter (`QWebKitView`) holds one boolean field `_should_emit_progress`
(the progress-emission gate), relays native WebKit callbacks (navigation
delegate methods and the `estimatedProgress` key-value observation) into Qt
signal emissions (`loadStarted`, `loadProgress(int)`, `loadFinished(bool)`),
and forwards the public API calls (`load`, `stop`, `reload`, `forward`,
`back`) to the native engine.

Modelling conventions:
* Qt signal emissions, calls into the native engine, and `print(...,
  file=sys.stderr)` diagnostics are recorded as lists (in program order).
* The native engine (`WKWebView`) is modelled by the fields the adapter
  reads: `estimatedProgress` (a `ℚ`, standing in for the native `double`,
  with exact rational arithmetic in place of binary64), `URL` and
  `isLoading`.
* `NSURL.URLWithString_` is external Foundation code; the adapter only
  branches on whether it returned `None`, so `load` takes the parse result
  (an `Option NSURL`) as an argument.
-/

/-- Model of a Foundation `NSURL`: the adapter only ever reads
`absoluteString` from it. -/
structure NSURL where
  absoluteString : String
deriving DecidableEq, Repr

/-- Model of a Qt `QUrl`: constructed either from a string
(`QUrl(self._wv().URL().absoluteString())`) or empty (`QUrl()`). -/
structure QUrl where
  urlString : String
deriving DecidableEq, Repr

/-- Model of `QUrl()`: the empty/default URL value. -/
def QUrl.empty : QUrl := ⟨""⟩

/-- The fields of the native `WKWebView` the adapter reads. -/
structure WKWebViewState where
  estimatedProgress : ℚ
  currentURL : Option NSURL
  isLoading : Bool
deriving DecidableEq, Repr

/-- State of a `QWebKitView` instance: the wrapped native engine plus the
one Python-side mutable field `_should_emit_progress` (line 135). -/
structure QWebKitViewState where
  wv : WKWebViewState
  should_emit_progress : Bool
deriving DecidableEq, Repr

/-- A Qt signal emission by the adapter. -/
inductive Emission where
  | loadStarted : Emission
  | loadProgress (percent : ℤ) : Emission
  | loadFinished (ok : Bool) : Emission
deriving DecidableEq, Repr

/-- A call the adapter issues into the native engine. -/
inductive EngineCall where
  | loadRequest (u : NSURL) : EngineCall
  | stopLoading : EngineCall
  | reload : EngineCall
  | goForward : EngineCall
  | goBack : EngineCall
deriving DecidableEq, Repr

/-- Result of one adapter operation: the successor state and, in program
order, the signals emitted, the native-engine calls issued and the stderr
diagnostics printed. -/
structure StepResult where
  state : QWebKitViewState
  emissions : List Emission
  engineCalls : List EngineCall
  diagnostics : List String
deriving DecidableEq, Repr

/-- Python `int(q)` on a (non-negative or negative) number: truncation
toward zero. Used for `int(self._wv.estimatedProgress() * 100)`. -/
def pyInt (q : ℚ) : ℤ :=
  if 0 ≤ q then ⌊q⌋ else -⌊-q⌋

/-- Embedding of `QWebKitView.__init__` (lines 108-138) as far as the modelled state is
concerned: a freshly created `WKWebView` and the gate initialised to
`False` (line 135: `self._should_emit_progress = False`). -/
def QWebKitView.initState : QWebKitViewState :=
  { wv := { estimatedProgress := 0, currentURL := none, isLoading := false }
    should_emit_progress := false }

/-- Embedding of `QWebKitView.load` (lines 150-157).  `parsed` is the result of the
external call `NSURL.URLWithString_(url.toString())`; `urlStr` is
`url.toString()`.  On parse failure the method prints
`f"Error: invalid url ..."` (the Python message wraps `urlStr` in single
quotes) and returns; otherwise it issues `loadRequest_` on the engine. -/
def QWebKitView.load (s : QWebKitViewState) (urlStr : String)
    (parsed : Option NSURL) : StepResult :=
  match parsed with
  | none =>
      { state := s, emissions := [], engineCalls := []
        diagnostics := ["Error: invalid url " ++ urlStr] }
  | some u =>
      { state := s, emissions := [], engineCalls := [EngineCall.loadRequest u]
        diagnostics := [] }

/-- Embedding of `QWebKitView.stop` (lines 159-163): `stopLoading()` on the engine, gate
set to `False`, then `loadFinished.emit(False)`. -/
def QWebKitView.stop (s : QWebKitViewState) : StepResult :=
  { state := { s with should_emit_progress := false }
    emissions := [Emission.loadFinished false]
    engineCalls := [EngineCall.stopLoading]
    diagnostics := [] }

/-- Embedding of `QWebKitView.reload` (lines 165-167): pure pass-through. -/
def QWebKitView.reload (s : QWebKitViewState) : StepResult :=
  { state := s, emissions := [], engineCalls := [EngineCall.reload]
    diagnostics := [] }

/-- Embedding of `QWebKitView.forward` (lines 169-171): pure pass-through. -/
def QWebKitView.forward (s : QWebKitViewState) : StepResult :=
  { state := s, emissions := [], engineCalls := [EngineCall.goForward]
    diagnostics := [] }

/-- Embedding of `QWebKitView.back` (lines 173-175): pure pass-through. -/
def QWebKitView.back (s : QWebKitViewState) : StepResult :=
  { state := s, emissions := [], engineCalls := [EngineCall.goBack]
    diagnostics := [] }

/-- Embedding of `QWebKitPage.url` (lines 80-84): if the weak reference to the engine is
live and the engine has a current URL, wrap its `absoluteString` in a
`QUrl`; otherwise return `QUrl()`.  `wvRef` is the value of the
`objc.WeakRef` call `self._wv()` (`none` when the referent is gone). -/
def QWebKitPage.url (wvRef : Option WKWebViewState) : QUrl :=
  match wvRef with
  | some w =>
      match w.currentURL with
      | some u => ⟨u.absoluteString⟩
      | none => QUrl.empty
  | none => QUrl.empty

/-- Embedding of `QWebKitView.url` (lines 177-178): delegates to the owned page proxy;
while the view is alive its `_wv` is alive, so the page's weak reference
resolves to it. -/
def QWebKitView.url (s : QWebKitViewState) : QUrl :=
  QWebKitPage.url (some s.wv)

/-- Embedding of `QWebKitView._started_provisional_navigation` (lines 183-185):
`loadStarted.emit()` then gate set to `True`. -/
def QWebKitView._started_provisional_navigation (s : QWebKitViewState) :
    QWebKitViewState × List Emission :=
  ({ s with should_emit_progress := true }, [Emission.loadStarted])

/-- Embedding of `QWebKitView._finished_navigation` (lines 187-189): gate set to
`False`, then `loadFinished.emit(True)`. -/
def QWebKitView._finished_navigation (s : QWebKitViewState) :
    QWebKitViewState × List Emission :=
  ({ s with should_emit_progress := false }, [Emission.loadFinished true])

/-- Embedding of `QWebKitView._failed_navigation` (lines 191-193): gate set to `False`,
then `loadFinished.emit(False)`. -/
def QWebKitView._failed_navigation (s : QWebKitViewState) :
    QWebKitViewState × List Emission :=
  ({ s with should_emit_progress := false }, [Emission.loadFinished false])

/-- Embedding of `QWebKitView._failed_provisional_navigation` (lines 195-197): same body
as `_failed_navigation`. -/
def QWebKitView._failed_provisional_navigation (s : QWebKitViewState) :
    QWebKitViewState × List Emission :=
  ({ s with should_emit_progress := false }, [Emission.loadFinished false])

/-- Embedding of `QWebKitView._progress_changed` (lines 199-202): on the
`"estimatedProgress"` key path, if the gate is armed, emit
`loadProgress(int(self._wv.estimatedProgress() * 100))`; otherwise emit
nothing. -/
def QWebKitView._progress_changed (s : QWebKitViewState) (keyPath : String) :
    QWebKitViewState × List Emission :=
  if keyPath = "estimatedProgress" then
    if s.should_emit_progress then
      (s, [Emission.loadProgress (pyInt (s.wv.estimatedProgress * 100))])
    else (s, [])
  else (s, [])

/-- A native WebKit callback delivered to the adapter (via the live relay
delegate).  `estimatedProgressChanged p` is a key-value observation firing
after the engine updated `estimatedProgress` to `p`; the error arguments of
the failure callbacks are never read by the handlers. -/
inductive NativeEvent where
  | didStartProvisionalNavigation : NativeEvent
  | didFinishNavigation : NativeEvent
  | didFailNavigation : NativeEvent
  | didFailProvisionalNavigation : NativeEvent
  | estimatedProgressChanged (p : ℚ) : NativeEvent
deriving DecidableEq, Repr

/-- Dispatch of one native callback into the corresponding private handler
of `QWebKitView` (the routing performed by `_QWebKitViewObserver` when its
weak back-reference is alive, lines 222-245).  For a key-value observation
the engine has already updated `estimatedProgress` when the handler reads
it back. -/
def nativeStep (s : QWebKitViewState) (e : NativeEvent) :
    QWebKitViewState × List Emission :=
  match e with
  | NativeEvent.didStartProvisionalNavigation =>
      QWebKitView._started_provisional_navigation s
  | NativeEvent.didFinishNavigation => QWebKitView._finished_navigation s
  | NativeEvent.didFailNavigation => QWebKitView._failed_navigation s
  | NativeEvent.didFailProvisionalNavigation =>
      QWebKitView._failed_provisional_navigation s
  | NativeEvent.estimatedProgressChanged p =>
      QWebKitView._progress_changed
        { s with wv := { s.wv with estimatedProgress := p } }
        "estimatedProgress"

/-- Run a sequence of native callbacks, concatenating the emissions. -/
def runNative (s : QWebKitViewState) :
    List NativeEvent → QWebKitViewState × List Emission
  | [] => (s, [])
  | e :: es =>
      let r := nativeStep s e
      let r' := runNative r.1 es
      (r'.1, r.2 ++ r'.2)

/-- A Python exception escaping a callback. -/
inductive PyExn where
  | referenceError : PyExn
deriving DecidableEq, Repr

/-- CPython semantics of truth-testing a `weakref.proxy` (as in
`if self._wkv:`, lines 224/229/234/239/244): when the referent is alive the
test forwards to the referent (a `QWebKitView` is a plain truthy object);
when the referent has been garbage-collected, *any* use of the proxy —
including its truth test — raises `ReferenceError`
(`Objects/weakrefobject.c`, `proxy_bool` via `proxy_checkref`). -/
def weakrefProxyTruthTest (referentAlive : Bool) : Except PyExn Bool :=
  if referentAlive then Except.ok true else Except.error PyExn.referenceError

/-- The common body shape of the five `_QWebKitViewObserver` callback
methods (lines 222-245): `if self._wkv: <forward to parent handler>`. -/
def observerGuardedForward (parentAlive : Bool) (s : QWebKitViewState)
    (forward : QWebKitViewState → QWebKitViewState × List Emission) :
    Except PyExn (QWebKitViewState × List Emission) :=
  match weakrefProxyTruthTest parentAlive with
  | Except.ok true => Except.ok (forward s)
  | Except.ok false => Except.ok (s, [])
  | Except.error e => Except.error e

/-- Embedding of `_QWebKitViewObserver.webView_didStartProvisionalNavigation_`
(lines 222-225). -/
def _QWebKitViewObserver.webView_didStartProvisionalNavigation_
    (parentAlive : Bool) (s : QWebKitViewState) :
    Except PyExn (QWebKitViewState × List Emission) :=
  observerGuardedForward parentAlive s
    QWebKitView._started_provisional_navigation

/-- Embedding of `_QWebKitViewObserver.webView_didFinishNavigation_` (lines 227-230). -/
def _QWebKitViewObserver.webView_didFinishNavigation_
    (parentAlive : Bool) (s : QWebKitViewState) :
    Except PyExn (QWebKitViewState × List Emission) :=
  observerGuardedForward parentAlive s QWebKitView._finished_navigation

/-- Embedding of `_QWebKitViewObserver.webView_didFailNavigation_withError_`
(lines 232-235). -/
def _QWebKitViewObserver.webView_didFailNavigation_withError_
    (parentAlive : Bool) (s : QWebKitViewState) :
    Except PyExn (QWebKitViewState × List Emission) :=
  observerGuardedForward parentAlive s QWebKitView._failed_navigation

/-- Embedding of `_QWebKitViewObserver.webView_didFailProvisionalNavigation_withError_`
(lines 237-240). -/
def _QWebKitViewObserver.webView_didFailProvisionalNavigation_withError_
    (parentAlive : Bool) (s : QWebKitViewState) :
    Except PyExn (QWebKitViewState × List Emission) :=
  observerGuardedForward parentAlive s
    QWebKitView._failed_provisional_navigation

/-- Embedding of `_QWebKitViewObserver.observeValueForKeyPath_ofObject_change_context_`
(lines 242-245). -/
def _QWebKitViewObserver.observeValueForKeyPath_ofObject_change_context_
    (parentAlive : Bool) (s : QWebKitViewState) (keyPath : String) :
    Except PyExn (QWebKitViewState × List Emission) :=
  observerGuardedForward parentAlive s
    (fun s => QWebKitView._progress_changed s keyPath)

/-- Embedding of `_WKWebView.becomeFirstResponder` (lines 90-95): refuse first-responder
status while `isLoading()`, else return whatever the `WKWebView` base-class
call returns (`superResult` models the base-class result). -/
def _WKWebView.becomeFirstResponder (w : WKWebViewState)
    (superResult : Bool) : Bool :=
  if w.isLoading then false else superResult

/-- Python object identity for the proxy-allocation claims: each call of a
class constructor binds a fresh object identity; `PyHeap.nextId` is the
next unused identity. -/
structure PyHeap where
  nextId : ℕ
deriving DecidableEq, Repr

/-- A reference to a Python object; two references denote the same object
(`is`) exactly when their identities are equal. -/
structure ObjRef where
  id : ℕ
deriving DecidableEq, Repr

/-- Allocation of a fresh Python object (one constructor call). -/
def pyAlloc (h : PyHeap) : ObjRef × PyHeap :=
  (⟨h.nextId⟩, ⟨h.nextId + 1⟩)

/-- Embedding of `QWebKitView.settings` (lines 207-208): `return QWebKitSettings()` — a
fresh stateless proxy is constructed on every call. -/
def QWebKitView.settings (h : PyHeap) : ObjRef × PyHeap :=
  pyAlloc h

/-- Embedding of `QWebKitPage.profile` (lines 86-87): `return QWebKitProfile()` — a fresh
stateless proxy is constructed on every call. -/
def QWebKitPage.profile (h : PyHeap) : ObjRef × PyHeap :=
  pyAlloc h

/-- Embedding of `QWebKitView.page` (lines 204-205): returns the one `QWebKitPage`
created in `__init__` (line 138), whose identity `pageRef` is fixed for the
view's lifetime; no allocation happens. -/
def QWebKitView.page (pageRef : ObjRef) (h : PyHeap) : ObjRef × PyHeap :=
  (pageRef, h)

/-- Embedding of `QWebKitSettings.setAttribute` (lines 53-54): prints a warning to
stderr and does nothing else — the class has no state at all, so the call
returns only its diagnostic output. -/
def QWebKitSettings.setAttribute (_attr : ℕ) (_b : Bool) : List String :=
  ["Warning: QWebKitSettings.setAttribute is not implemented"]

/-- The three terminal navigation callbacks, with the success flag the
corresponding handler emits. -/
inductive TerminalKind where
  | finished : TerminalKind
  | failed : TerminalKind
  | failedProvisional : TerminalKind
deriving DecidableEq, Repr

/-- The native callback a terminal kind stands for. -/
def TerminalKind.toEvent : TerminalKind → NativeEvent
  | TerminalKind.finished => NativeEvent.didFinishNavigation
  | TerminalKind.failed => NativeEvent.didFailNavigation
  | TerminalKind.failedProvisional =>
      NativeEvent.didFailProvisionalNavigation

/-- The boolean payload of the `loadFinished` emission for a terminal kind
(`True` only for a successful finish). -/
def TerminalKind.success : TerminalKind → Bool
  | TerminalKind.finished => true
  | TerminalKind.failed => false
  | TerminalKind.failedProvisional => false

/-- Whether an emission is a `loadStarted`. -/
def Emission.isStarted : Emission → Bool
  | Emission.loadStarted => true
  | _ => false

/-- Whether an emission is a `loadFinished`. -/
def Emission.isFinished : Emission → Bool
  | Emission.loadFinished _ => true
  | _ => false

/-- The payload of a `loadProgress` emission, if it is one. -/
def Emission.progressValue : Emission → Option ℤ
  | Emission.loadProgress v => some v
  | _ => none

/-- A convenient state with the progress gate armed (as after a
start-of-navigation callback on a loading engine). -/
def armedState : QWebKitViewState :=
  { wv := { estimatedProgress := 0, currentURL := none, isLoading := true }
    should_emit_progress := true }

/-- Bounds of the truncated percentage for a native progress value in
`[0, 1]`. -/
theorem floor_progress_bounds (p : ℚ) (hp0 : 0 ≤ p) (hp1 : p ≤ 1) :
    0 ≤ ⌊p * 100⌋ ∧ ⌊p * 100⌋ ≤ 100 := by
  constructor
  · exact Int.le_floor.mpr (by push_cast; nlinarith)
  · have h : ⌊p * 100⌋ ≤ ⌊(100 : ℚ)⌋ := Int.floor_le_floor (by nlinarith)
    simpa using h
/-- For a non-negative argument, Python truncation agrees with the floor. -/
theorem pyInt_eq_floor (q : ℚ) (hq : 0 ≤ q) : pyInt q = ⌊q⌋ := by
  simp [pyInt, hq]

/-- C6: for every address whose parsing into a native URL fails
(`NSURL.URLWithString_` returned `None`), `load` prints a diagnostic and
returns: no emission, no native engine call, and the state — in particular
the progress gate — is unchanged.  (The Lean model is total, so no
exception can occur.) -/
theorem C6_load_invalid_url_noop (s : QWebKitViewState) (urlStr : String) :
    (QWebKitView.load s urlStr none).state = s ∧
    (QWebKitView.load s urlStr none).emissions = [] ∧
    (QWebKitView.load s urlStr none).engineCalls = [] ∧
    (QWebKitView.load s urlStr none).diagnostics =
      ["Error: invalid url " ++ urlStr] ∧
    (QWebKitView.load s urlStr none).state.should_emit_progress =
      s.should_emit_progress :=
  ⟨rfl, rfl, rfl, rfl, rfl⟩

/-- C7: whenever the engine has no current URL — including before any
successful load, or when the weak reference to the engine is dead — the
page proxy's `url()` (and hence the view's `url()`) returns the
empty/default `QUrl()` instead of failing. -/
theorem C7_url_empty_when_no_current_url (wvRef : Option WKWebViewState)
    (h : wvRef = none ∨ ∃ w, wvRef = some w ∧ w.currentURL = none) :
    QWebKitPage.url wvRef = QUrl.empty ∧
    ∀ s : QWebKitViewState, s.wv.currentURL = none →
      QWebKitView.url s = QUrl.empty := by
  constructor
  · rcases h with h | ⟨w, rfl, hw⟩
    · subst h; rfl
    · simp [QWebKitPage.url, hw]
  · intro s hs
    simp [QWebKitView.url, QWebKitPage.url, hs]

/-- Witness for C7: the dead-reference case, and the freshly constructed
view (no load yet) both yield `QUrl()`. -/
theorem C7_witness :
    QWebKitPage.url none = QUrl.empty ∧
    QWebKitView.url QWebKitView.initState = QUrl.empty :=
  ⟨(C7_url_empty_when_no_current_url none (Or.inl rfl)).1,
    (C7_url_empty_when_no_current_url none (Or.inl rfl)).2
      QWebKitView.initState rfl⟩

/-- C8: `stop()` emits `loadFinished(False)` unconditionally, in every
state of the adapter — in particular in the just-constructed state where no
load has ever been issued. -/
theorem C8_stop_emits_finished_false_unconditionally
    (s : QWebKitViewState) :
    (QWebKitView.stop s).emissions = [Emission.loadFinished false] ∧
    (QWebKitView.stop QWebKitView.initState).emissions =
      [Emission.loadFinished false] :=
  ⟨rfl, rfl⟩

/-- C9: while the wrapped native view reports `isLoading()`,
`becomeFirstResponder` returns `False`; otherwise it returns the
base-class result. -/
theorem C9_becomeFirstResponder_refused_while_loading
    (w : WKWebViewState) (superResult : Bool) :
    (w.isLoading = true →
      _WKWebView.becomeFirstResponder w superResult = false) ∧
    (w.isLoading = false →
      _WKWebView.becomeFirstResponder w superResult = superResult) := by
  constructor <;> intro h <;> simp [_WKWebView.becomeFirstResponder, h]

/-- Witness for C9 at concrete engine states (loading and idle). -/
theorem C9_witness :
    _WKWebView.becomeFirstResponder
      { estimatedProgress := 0, currentURL := none, isLoading := true }
      true = false ∧
    _WKWebView.becomeFirstResponder
      { estimatedProgress := 0, currentURL := none, isLoading := false }
      true = true :=
  ⟨(C9_becomeFirstResponder_refused_while_loading _ true).1 rfl,
    (C9_becomeFirstResponder_refused_while_loading _ true).2 rfl⟩

/-- C10: `settings()` and the page proxy's `profile()` construct a fresh
proxy object on every call (two successive calls return distinct objects),
while `page()` is identity-stable; and the settings proxy is stateless —
`setAttribute` only prints a warning, so nothing set on one proxy can be
visible through another. -/
theorem C10_settings_profile_fresh_page_stable (h : PyHeap)
    (pageRef : ObjRef) :
    (QWebKitView.settings h).1 ≠
      (QWebKitView.settings (QWebKitView.settings h).2).1 ∧
    (QWebKitPage.profile h).1 ≠
      (QWebKitPage.profile (QWebKitPage.profile h).2).1 ∧
    (QWebKitView.page pageRef h).1 =
      (QWebKitView.page pageRef (QWebKitView.page pageRef h).2).1 ∧
    ∀ (a : ℕ) (b : Bool), QWebKitSettings.setAttribute a b =
      ["Warning: QWebKitSettings.setAttribute is not implemented"] := by
  refine ⟨?_, ?_, rfl, fun a b => rfl⟩ <;>
    · intro heq
      simp only [QWebKitView.settings, QWebKitPage.profile, pyAlloc,
        ObjRef.mk.injEq] at heq
      omega

/-- C2 (code evaluated at the failing input): once the `QWebKitView` has
been garbage-collected, every one of the five `_QWebKitViewObserver`
callbacks raises `ReferenceError` at its `if self._wkv:` guard — because
truth-testing a dead `weakref.proxy` raises — instead of being the silent
no-op the guard was written for. -/
theorem C2_dead_parent_callback_raises (s : QWebKitViewState)
    (keyPath : String) :
    _QWebKitViewObserver.webView_didStartProvisionalNavigation_ false s =
      Except.error PyExn.referenceError ∧
    _QWebKitViewObserver.webView_didFinishNavigation_ false s =
      Except.error PyExn.referenceError ∧
    _QWebKitViewObserver.webView_didFailNavigation_withError_ false s =
      Except.error PyExn.referenceError ∧
    _QWebKitViewObserver.webView_didFailProvisionalNavigation_withError_
      false s = Except.error PyExn.referenceError ∧
    _QWebKitViewObserver.observeValueForKeyPath_ofObject_change_context_
      false s keyPath = Except.error PyExn.referenceError :=
  ⟨rfl, rfl, rfl, rfl, rfl⟩

/-- Lemma: `runNative` distributes over trace concatenation. -/
theorem runNative_append (s : QWebKitViewState) (xs ys : List NativeEvent) :
    runNative s (xs ++ ys) =
      ((runNative (runNative s xs).1 ys).1,
        (runNative s xs).2 ++ (runNative (runNative s xs).1 ys).2) := by
  induction xs generalizing s with
  | nil => simp [runNative]
  | cons e xs ih => simp [runNative, ih]

/-- With the gate disarmed, a run of progress key-value callbacks emits
nothing and leaves the gate disarmed. -/
theorem runNative_progress_disarmed (s : QWebKitViewState)
    (hs : s.should_emit_progress = false) (qs : List ℚ) :
    (runNative s (qs.map NativeEvent.estimatedProgressChanged)).2 = [] ∧
    (runNative s
        (qs.map NativeEvent.estimatedProgressChanged)).1.should_emit_progress
      = false := by
  induction qs generalizing s with
  | nil => simpa [runNative] using hs
  | cons q qs ih =>
      have hstep :
          nativeStep s (NativeEvent.estimatedProgressChanged q) =
            ({ s with wv := { s.wv with estimatedProgress := q } }, []) := by
        simp [nativeStep, QWebKitView._progress_changed, hs]
      simp only [List.map_cons, runNative, hstep]
      simpa using ih { s with wv := { s.wv with estimatedProgress := q } }
        (by simpa using hs)

/-- With the gate armed, a run of progress key-value callbacks emits one
`loadProgress` per callback, carrying the truncated percentage of the value
the engine reported, and leaves the gate armed. -/
theorem runNative_progress_armed (s : QWebKitViewState)
    (hs : s.should_emit_progress = true) (qs : List ℚ)
    (hq : ∀ p ∈ qs, 0 ≤ p) :
    (runNative s (qs.map NativeEvent.estimatedProgressChanged)).2 =
      qs.map (fun p => Emission.loadProgress ⌊p * 100⌋) ∧
    (runNative s
        (qs.map NativeEvent.estimatedProgressChanged)).1.should_emit_progress
      = true := by
  induction qs generalizing s with
  | nil => simpa [runNative] using hs
  | cons q qs ih =>
      have hq0 : (0 : ℚ) ≤ q := hq q (List.mem_cons_self q qs)
      have hstep :
          nativeStep s (NativeEvent.estimatedProgressChanged q) =
            ({ s with wv := { s.wv with estimatedProgress := q } },
              [Emission.loadProgress ⌊q * 100⌋]) := by
        simp [nativeStep, QWebKitView._progress_changed, hs,
          pyInt_eq_floor (q * 100) (by nlinarith)]
      simp only [List.map_cons, runNative, hstep]
      have hrest := ih { s with wv := { s.wv with estimatedProgress := q } }
        (by simpa using hs) (fun p hp => hq p (List.mem_cons_of_mem q hp))
      simp [hrest.1, hrest.2]

/-- C5: when the gate is armed, a progress key-value observation reporting
the fractional value `p ∈ [0, 1]` makes the adapter emit `loadProgress`
with exactly `⌊p * 100⌋` — an integer in `0..100` obtained by truncation
(Python `int(...)`), not rounding. -/
theorem C5_progress_scaled_by_truncation (s : QWebKitViewState) (p : ℚ)
    (hgate : s.should_emit_progress = true) (hp0 : 0 ≤ p) (hp1 : p ≤ 1) :
    (nativeStep s (NativeEvent.estimatedProgressChanged p)).2 =
      [Emission.loadProgress ⌊p * 100⌋] ∧
    0 ≤ ⌊p * 100⌋ ∧ ⌊p * 100⌋ ≤ 100 := by
  refine ⟨?_, floor_progress_bounds p hp0 hp1⟩
  simp [nativeStep, QWebKitView._progress_changed, hgate,
    pyInt_eq_floor (p * 100) (by nlinarith)]

/-- Witness for C5: at `p = 0.999` the emitted percentage is `99`
(truncated), not `100` (rounded). -/
theorem C5_witness :
    (nativeStep armedState
        (NativeEvent.estimatedProgressChanged (999 / 1000))).2 =
      [Emission.loadProgress 99] := by
  have h := C5_progress_scaled_by_truncation armedState (999 / 1000) rfl
    (by norm_num) (by norm_num)
  rw [h.1]
  norm_num

/-- C3: `stop()` requests cancellation from the native engine
(`stopLoading`), disarms the progress gate, and synchronously emits exactly
`loadFinished(False)`; and from the post-`stop` state, any run of further
progress key-value callbacks (the gate staying disarmed) emits nothing. -/
theorem C3_stop_cancels_and_suppresses_progress (s : QWebKitViewState)
    (qs : List ℚ) :
    (QWebKitView.stop s).engineCalls = [EngineCall.stopLoading] ∧
    (QWebKitView.stop s).state.should_emit_progress = false ∧
    (QWebKitView.stop s).emissions = [Emission.loadFinished false] ∧
    (runNative (QWebKitView.stop s).state
        (qs.map NativeEvent.estimatedProgressChanged)).2 = [] :=
  ⟨rfl, rfl, rfl,
    (runNative_progress_disarmed (QWebKitView.stop s).state rfl qs).1⟩

/-- C4: the progress-emission gate discipline.  The gate is `False` at
construction; after any native callback it is `True` only if the callback
was the start-of-navigation one or the gate was already `True` (so only the
start handler arms it); every terminal handler and `stop()` disarm it; the
public API calls `load`, `reload`, `forward`, `back` never touch it; and a
`loadProgress` emission happens only from a state whose gate is `True`
(and is never produced by any public API call). -/
theorem C4_gate_invariant :
    QWebKitView.initState.should_emit_progress = false ∧
    (∀ (s : QWebKitViewState) (e : NativeEvent),
      (nativeStep s e).1.should_emit_progress = true →
        e = NativeEvent.didStartProvisionalNavigation ∨
          s.should_emit_progress = true) ∧
    (∀ s : QWebKitViewState,
      (nativeStep s
          NativeEvent.didStartProvisionalNavigation).1.should_emit_progress
        = true) ∧
    (∀ (s : QWebKitViewState) (t : TerminalKind),
      (nativeStep s t.toEvent).1.should_emit_progress = false) ∧
    (∀ s : QWebKitViewState,
      (QWebKitView.stop s).state.should_emit_progress = false) ∧
    (∀ (s : QWebKitViewState) (e : NativeEvent) (v : ℤ),
      Emission.loadProgress v ∈ (nativeStep s e).2 →
        s.should_emit_progress = true) ∧
    (∀ (s : QWebKitViewState) (urlStr : String) (parsed : Option NSURL),
      (QWebKitView.load s urlStr parsed).state.should_emit_progress =
        s.should_emit_progress ∧
      ∀ v : ℤ, Emission.loadProgress v ∉
        (QWebKitView.load s urlStr parsed).emissions) ∧
    (∀ (s : QWebKitViewState) (v : ℤ),
      (QWebKitView.reload s).state.should_emit_progress =
          s.should_emit_progress ∧
        (QWebKitView.forward s).state.should_emit_progress =
          s.should_emit_progress ∧
        (QWebKitView.back s).state.should_emit_progress =
          s.should_emit_progress ∧
        Emission.loadProgress v ∉ (QWebKitView.stop s).emissions ∧
        Emission.loadProgress v ∉ (QWebKitView.reload s).emissions ∧
        Emission.loadProgress v ∉ (QWebKitView.forward s).emissions ∧
        Emission.loadProgress v ∉ (QWebKitView.back s).emissions) := by
  refine ⟨rfl, ?_, fun s => rfl, ?_, fun s => rfl, ?_, ?_, ?_⟩
  · intro s e h
    cases e with
    | didStartProvisionalNavigation => exact Or.inl rfl
    | didFinishNavigation => simp [nativeStep, QWebKitView._finished_navigation] at h
    | didFailNavigation => simp [nativeStep, QWebKitView._failed_navigation] at h
    | didFailProvisionalNavigation =>
        simp [nativeStep, QWebKitView._failed_provisional_navigation] at h
    | estimatedProgressChanged p =>
        by_cases hg : s.should_emit_progress
        · exact Or.inr hg
        · simp [nativeStep, QWebKitView._progress_changed, hg] at h
  · intro s t
    cases t <;> rfl
  · intro s e v h
    cases e with
    | didStartProvisionalNavigation =>
        simp [nativeStep, QWebKitView._started_provisional_navigation] at h
    | didFinishNavigation =>
        simp [nativeStep, QWebKitView._finished_navigation] at h
    | didFailNavigation =>
        simp [nativeStep, QWebKitView._failed_navigation] at h
    | didFailProvisionalNavigation =>
        simp [nativeStep, QWebKitView._failed_provisional_navigation] at h
    | estimatedProgressChanged p =>
        by_cases hg : s.should_emit_progress
        · exact hg
        · simp [nativeStep, QWebKitView._progress_changed, hg] at h
  · intro s urlStr parsed
    cases parsed <;> exact ⟨rfl, by intro v hv; simp [QWebKitView.load] at hv⟩
  · intro s v
    refine ⟨rfl, rfl, rfl, ?_, ?_, ?_, ?_⟩ <;>
      simp [QWebKitView.stop, QWebKitView.reload, QWebKitView.forward,
        QWebKitView.back]

/-- Witness for C4: the armed-only-by-start and emit-only-when-armed
conjuncts applied at concrete inputs. -/
theorem C4_witness :
    (NativeEvent.didStartProvisionalNavigation =
        NativeEvent.didStartProvisionalNavigation ∨
      QWebKitView.initState.should_emit_progress = true) ∧
    armedState.should_emit_progress = true := by
  constructor
  · exact C4_gate_invariant.2.1 QWebKitView.initState
      NativeEvent.didStartProvisionalNavigation rfl
  · refine C4_gate_invariant.2.2.2.2.2.1 armedState
      (NativeEvent.estimatedProgressChanged (1 / 2)) 50 ?_
    simp [nativeStep, QWebKitView._progress_changed, armedState]
    rw [pyInt_eq_floor _ (by norm_num)]
    norm_num

/-- One-step unfolding of `runNative`. -/
theorem runNative_cons (s : QWebKitViewState) (e : NativeEvent)
    (es : List NativeEvent) :
    runNative s (e :: es) =
      ((runNative (nativeStep s e).1 es).1,
        (nativeStep s e).2 ++ (runNative (nativeStep s e).1 es).2) := rfl

/-- Each terminal callback disarms the gate and emits a single
`loadFinished` with the corresponding success flag. -/
theorem nativeStep_terminal (s : QWebKitViewState) (t : TerminalKind) :
    nativeStep s t.toEvent =
      ({ s with should_emit_progress := false },
        [Emission.loadFinished t.success]) := by
  cases t <;> rfl

/-- The native callback sequence of one well-formed navigation, as assumed
of the engine by the spec (one start, the progress key-value observations,
one terminal callback, non-overlapping), followed by any late progress
observations after the terminal one. -/
def navTrace (ps : List ℚ) (t : TerminalKind) (post : List ℚ) :
    List NativeEvent :=
  NativeEvent.didStartProvisionalNavigation ::
    (ps.map NativeEvent.estimatedProgressChanged ++
      t.toEvent :: post.map NativeEvent.estimatedProgressChanged)

/-- The emissions the adapter produces on a navigation trace. -/
def navEmissions (s : QWebKitViewState) (ps : List ℚ) (t : TerminalKind)
    (post : List ℚ) : List Emission :=
  (runNative s (navTrace ps t post)).2

/-- Closed form of the adapter's emissions over one well-formed
navigation: `loadStarted`, one `loadProgress` per reported value, the
terminal `loadFinished`, and nothing for the post-terminal observations. -/
theorem navEmissions_eq (s : QWebKitViewState) (ps post : List ℚ)
    (t : TerminalKind) (hq : ∀ p ∈ ps, 0 ≤ p) :
    navEmissions s ps t post =
      Emission.loadStarted ::
        (ps.map fun p => Emission.loadProgress ⌊p * 100⌋) ++
          [Emission.loadFinished t.success] := by
  have hmid := runNative_progress_armed
    { s with should_emit_progress := true } rfl ps hq
  have hterm := nativeStep_terminal (runNative
    { s with should_emit_progress := true }
    (ps.map NativeEvent.estimatedProgressChanged)).1 t
  have hpost := runNative_progress_disarmed
    { (runNative { s with should_emit_progress := true }
        (ps.map NativeEvent.estimatedProgressChanged)).1 with
      should_emit_progress := false } rfl post
  unfold navEmissions navTrace
  rw [runNative_cons]
  show (nativeStep s NativeEvent.didStartProvisionalNavigation).2 ++ _ = _
  rw [show nativeStep s NativeEvent.didStartProvisionalNavigation =
    ({ s with should_emit_progress := true }, [Emission.loadStarted]) from
    rfl]
  rw [runNative_append, runNative_cons, hterm, hmid.1, hpost.1]
  simp

/-- Extracting the progress payloads from a block of `loadProgress`
emissions. -/
theorem filterMap_progress (ps : List ℚ) :
    (ps.map fun p => Emission.loadProgress ⌊p * 100⌋).filterMap
        Emission.progressValue = ps.map fun p => ⌊p * 100⌋ := by
  induction ps with
  | nil => rfl
  | cons p ps ih =>
      simp only [List.map_cons, List.filterMap_cons, Emission.progressValue,
        ih]

/-- C1: issuing `load` with a well-formed (successfully parsed) address
emits nothing by itself and leaves the state unchanged; then, over the
native callback sequence of one navigation (one start callback, progress
observations with non-decreasing values in `[0, 1]`, one terminal
callback, and any number of late progress observations after it — the
delivery shape the spec assumes of the engine), the adapter emits exactly
one `loadStarted`, then one `loadProgress` per observation, each value in
`[0, 100]` and non-decreasing, then exactly one `loadFinished` (with
`True` exactly for the successful terminal), and no `loadProgress` after
it. -/
theorem C1_load_emission_lifecycle (s : QWebKitViewState)
    (urlStr : String) (u : NSURL) (ps post : List ℚ) (t : TerminalKind)
    (hmono : ps.Chain' (· ≤ ·))
    (hrange : ∀ p ∈ ps, 0 ≤ p ∧ p ≤ 1) :
    (QWebKitView.load s urlStr (some u)).emissions = [] ∧
    (QWebKitView.load s urlStr (some u)).state = s ∧
    navEmissions s ps t post =
      Emission.loadStarted ::
        (ps.map fun p => Emission.loadProgress ⌊p * 100⌋) ++
          [Emission.loadFinished t.success] ∧
    (navEmissions s ps t post).countP Emission.isStarted = 1 ∧
    (navEmissions s ps t post).countP Emission.isFinished = 1 ∧
    (∀ v : ℤ, Emission.loadProgress v ∈ navEmissions s ps t post →
      0 ≤ v ∧ v ≤ 100) ∧
    ((navEmissions s ps t post).filterMap
        Emission.progressValue).Chain' (· ≤ ·) := by
  have hq : ∀ p ∈ ps, (0 : ℚ) ≤ p := fun p hp => (hrange p hp).1
  have he := navEmissions_eq s ps post t hq
  refine ⟨rfl, rfl, he, ?_, ?_, ?_, ?_⟩
  · rw [he]
    simp [List.countP_cons, List.countP_append, List.countP_map,
      Function.comp, Emission.isStarted]
  · rw [he]
    simp [List.countP_cons, List.countP_append, List.countP_map,
      Function.comp, Emission.isFinished]
  · intro v hv
    rw [he] at hv
    simp only [List.mem_cons, List.mem_append, List.mem_map] at hv
    rcases hv with (h | ⟨p, hp, hpe⟩) | h
    · simp at h
    · have hv' : ⌊p * 100⌋ = v := by
        simpa only [Emission.loadProgress.injEq] using hpe
      rw [← hv']
      exact floor_progress_bounds p (hrange p hp).1 (hrange p hp).2
    · simp at h
  · rw [he]
    rw [List.cons_append, List.filterMap_cons, List.filterMap_append,
      filterMap_progress]
    simp only [Emission.progressValue, List.filterMap_cons,
      List.filterMap_nil, List.append_nil]
    rw [List.chain'_map]
    exact hmono.imp fun a b hab =>
      Int.floor_le_floor (by nlinarith)

/-- Witness for C1: a concrete navigation — load, start, progress `0.25`
then `0.5`, successful finish, then a late progress `0.75` observation —
emits exactly `loadStarted`, `loadProgress(25)`, `loadProgress(50)`,
`loadFinished(True)`. -/
theorem C1_witness :
    navEmissions QWebKitView.initState [1 / 4, 1 / 2]
        TerminalKind.finished [3 / 4] =
      [Emission.loadStarted, Emission.loadProgress 25,
        Emission.loadProgress 50, Emission.loadFinished true] := by
  have h := C1_load_emission_lifecycle QWebKitView.initState "u" ⟨"u"⟩
    [1 / 4, 1 / 2] [3 / 4] TerminalKind.finished
    (by norm_num) (by norm_num)
  rw [h.2.2.1]
  simp only [List.map_cons, List.map_nil, List.cons_append,
    List.nil_append]
  norm_num
  rfl

/-- Witness for C10 at a concrete heap: the two successive `settings()`
results are the distinct objects `0` and `1`, while `page()` returns the
same object both times. -/
theorem C10_witness :
    (QWebKitView.settings ⟨0⟩).1 ≠
      (QWebKitView.settings (QWebKitView.settings ⟨0⟩).2).1 ∧
    (QWebKitView.page ⟨7⟩ ⟨2⟩).1 =
      (QWebKitView.page ⟨7⟩ (QWebKitView.page ⟨7⟩ ⟨2⟩).2).1 :=
  ⟨(C10_settings_profile_fresh_page_stable ⟨0⟩ ⟨7⟩).1,
    (C10_settings_profile_fresh_page_stable ⟨2⟩ ⟨7⟩).2.2.1⟩
